import Mathlib

/-!
# Verification of the fetch-and-flatten core of the Spotify ETL pipeline

Shallow embedding of the pure data-shaping logic of the pipeline:

* `SpotifyDataManager.albums_df` (album → artist-credit → track flattening),
* `SpotifyDataManager.get_album_ids` (paginated search, offsets of 50 up to 1000),
* `SpotifyDataManager.get_album_data` / `SpotifyDataFetcher.features_df` /
  `tracks_df` / `artists_df` (batch-windowed lookups via `chunks`),
* `SpotifyDataFetcher.cleanup` (list-column widening into indexed columns),
* the Dataform trigger step of `initial_load.main`
  (`create_compilation_result` / `create_workflow_invocation`).

Network calls are modelled by response oracles passed in as functions; the
request sequence each operation would issue is computed explicitly so that
claims about request counts and abort behaviour can be stated.
-/

set_option maxHeartbeats 1000000

namespace SpotifyETL

/-! ## Raw response shapes read by `SpotifyDataManager.albums_df`

Optional dictionary fields read with `.get(key, default)` are `Option`s;
fields the Python accesses by direct subscripting (always present on the
success path) are plain. -/

/-- A track-level artist credit: `item["artists"][k]`, whose `"name"` is read
by direct subscript in `albums_df`. -/
structure RawTrackArtist where
  name : String
deriving DecidableEq, Repr

/-- A track object inside `album["tracks"]["items"]`. -/
structure RawTrack where
  name : Option String
  id : Option String
  track_number : Option Nat
  duration_ms : Option Nat
  artists : Option (List RawTrackArtist)
deriving DecidableEq, Repr

/-- An album-level artist credit: only `"id"` is read (`artist.get("id", "")`). -/
structure RawAlbumArtist where
  id : Option String
deriving DecidableEq, Repr

/-- The `album["tracks"]` sub-object; `albums_df` reads
`album.get("tracks", {}).get("items", [])`. -/
structure RawTracksObj where
  items : Option (List RawTrack)
deriving DecidableEq, Repr

/-- A raw album object as read by `albums_df`. -/
structure RawAlbum where
  album_type : Option String
  total_tracks : Option Nat
  name : Option String
  release_date : Option String
  label : Option String
  popularity : Option Nat
  id : Option String
  artists : Option (List RawAlbumArtist)
  tracks : Option RawTracksObj
deriving DecidableEq, Repr

/-- One element of the list handed to `albums_df`: a batch response object
whose `"albums"` list is read with `data_item.get("albums", [])`. -/
structure DataItem where
  albums : Option (List RawAlbum)
deriving DecidableEq, Repr

/-- A flat output row of `albums_df`: the `track_info` dictionary after
`update(album_info)` and `update(artist_info)`. -/
structure TrackRow where
  track_name : String
  track_id : String
  track_number : Nat
  duration_ms : Nat
  artists : List String
  album_type : String
  total_tracks : Nat
  album_name : String
  release_date : String
  label : String
  album_popularity : Nat
  album_id : String
  artist_id : String
deriving DecidableEq, Repr

/-- Model of `album.get("tracks", {}).get("items", [])`. -/
def RawAlbum.trackItems (album : RawAlbum) : List RawTrack :=
  match album.tracks with
  | none => []
  | some t => t.items.getD []

/-- The row built by the innermost loop of `albums_df` for one
(album, artist-credit, track) triple: track-level fields, the track-level
artist-name list, the album-level fields and the artist id of the credit. -/
def trackInfoRow (album : RawAlbum) (artist : RawAlbumArtist) (item : RawTrack) :
    TrackRow where
  track_name := item.name.getD ""
  track_id := item.id.getD ""
  track_number := item.track_number.getD 0
  duration_ms := item.duration_ms.getD 0
  artists := (item.artists.getD []).map RawTrackArtist.name
  album_type := album.album_type.getD ""
  total_tracks := album.total_tracks.getD 0
  album_name := album.name.getD ""
  release_date := album.release_date.getD ""
  label := album.label.getD ""
  album_popularity := album.popularity.getD 0
  album_id := album.id.getD ""
  artist_id := artist.id.getD ""

/-- The rows contributed by one album: the two nested loops
`for artist in album.get("artists", [])` / `for item in ...items`. -/
def albumRows (album : RawAlbum) : List TrackRow :=
  (album.artists.getD []).flatMap fun artist =>
    album.trackItems.map fun item => trackInfoRow album artist item

/-- Model of `SpotifyDataManager.albums_df`: flatten a list of raw batch responses into
one row per (album, artist-credit, track) triple, in loop order. -/
def albums_df (data : List DataItem) : List TrackRow :=
  data.flatMap fun data_item => (data_item.albums.getD []).flatMap albumRows

/-- Model of `df.drop_duplicates(subset=["track_id"])` with the pandas default
`keep="first"`: keep a row iff its `track_id` was not seen earlier. -/
def dropDupsByTrackId : List TrackRow → List String → List TrackRow
  | [], _ => []
  | r :: rs, seen =>
    if r.track_id ∈ seen then dropDupsByTrackId rs seen
    else r :: dropDupsByTrackId rs (r.track_id :: seen)

/-- The deduplication applied in `initial_load.main` right after `albums_df`. -/
def dedupTracks (rows : List TrackRow) : List TrackRow :=
  dropDupsByTrackId rows []

/-! ## Batch windowing (`SpotifyDataFetcher.chunks`) and the batch lookups -/

/-- Model of `SpotifyDataFetcher.chunks`: yield `lst[i : i + n]` for
`i in range(0, len(lst), n)`.  (Here the Python `range` raises for step 0; every
caller passes a positive size, so the 0 case is unreachable.) -/
def chunks (n : Nat) : List α → List (List α)
  | [] => []
  | x :: xs =>
    match n with
    | 0 => []
    | m + 1 => ((x :: xs).take (m + 1)) :: chunks (m + 1) (xs.drop m)
termination_by l => l.length
decreasing_by simp [List.length_drop]; omega

/-- An HTTP response to one batch lookup: status code, reason phrase, and the
parsed JSON body. -/
structure BatchResponse (β : Type) where
  status : Nat
  reason : String
  content : β
deriving Repr

/-- The payload of the `ValueError` raised on a non-200 batch response:
`f"Invalid response code: {status}, Reason: {reason}"`. -/
structure ErrInfo where
  status : Nat
  reason : String
deriving DecidableEq, Repr

/-- The request loop shared by the four batch lookups
(`get_album_data`, `features_df`, `tracks_df`, `artists_df`): issue one
request per window in order; a non-200 response raises immediately (no
further window is requested and nothing is returned); otherwise extract this
records of the window and continue.  Returns the windows actually requested
together with the outcome. -/
def runBatches (api : List String → BatchResponse β) (extract : β → List γ) :
    List (List String) → List (List String) × Except ErrInfo (List γ)
  | [] => ([], .ok [])
  | c :: cs =>
    let result := api c
    if result.status ≠ 200 then
      ([c], .error ⟨result.status, result.reason⟩)
    else
      let rest := runBatches api extract cs
      (c :: rest.1,
        match rest.2 with
        | .ok acc => .ok (extract result.content ++ acc)
        | .error e => .error e)

/-- Model of `SpotifyDataManager.get_album_data`: windows of 20 ids; for each
200 response the whole parsed content is appended (`all_content.append(content)`). -/
def get_album_data (api : List String → BatchResponse DataItem)
    (album_ids : List String) :
    List (List String) × Except ErrInfo (List DataItem) :=
  runBatches api (fun content => [content]) (chunks 20 album_ids)

/-- Body of a `/v1/audio-features` response: the `audio_features` list, which
may contain position-aligned nulls for unknown ids. -/
structure FeaturesContent (φ : Type) where
  audio_features : List (Option φ)
deriving Repr

/-- Model of `SpotifyDataFetcher.features_df`: windows of 100 ids; per window the
`audio_features` list is read and `None` entries are filtered out before the
rest are appended in order. -/
def features_df (api : List String → BatchResponse (FeaturesContent φ))
    (track_ids : List String) :
    List (List String) × Except ErrInfo (List φ) :=
  runBatches api (fun content => content.audio_features.filterMap id)
    (chunks 100 track_ids)

/-- A raw track object of a `/v1/tracks` response, as read by `tracks_df`. -/
structure RawTrackObj where
  id : Option String
  popularity : Option Nat
  explicit : Option Bool
deriving DecidableEq, Repr

/-- The scalar subset `tracks_df` keeps per track. -/
structure TrackFeatures where
  id : String
  track_popularity : Nat
  explicit : Bool
deriving DecidableEq, Repr

/-- Field extraction in the inner loop of `tracks_df` (`.get` with defaults). -/
def trackFeaturesOf (t : RawTrackObj) : TrackFeatures :=
  ⟨t.id.getD "", t.popularity.getD 0, t.explicit.getD false⟩

/-- Body of a `/v1/tracks` response: the `tracks` list, possibly with nulls. -/
structure TracksContent where
  tracks : List (Option RawTrackObj)
deriving Repr

/-- Model of `SpotifyDataFetcher.tracks_df`: windows of 50 ids; per window, entries of
the `tracks` list that are dictionaries have (id, popularity, explicit)
extracted, nulls are skipped by the `isinstance` check. -/
def tracks_df (api : List String → BatchResponse TracksContent)
    (track_ids : List String) :
    List (List String) × Except ErrInfo (List TrackFeatures) :=
  runBatches api (fun content => content.tracks.filterMap (Option.map trackFeaturesOf))
    (chunks 50 track_ids)

/-- The `followers` sub-object of an artist response. -/
structure Followers where
  total : Option Nat
deriving DecidableEq, Repr

/-- A raw artist object of a `/v1/artists` response, as read by `artists_df`. -/
structure RawArtistObj where
  id : Option String
  name : Option String
  popularity : Option Nat
  genres : Option (List String)
  followers : Option Followers
deriving DecidableEq, Repr

/-- The fields `artists_df` keeps per artist. -/
structure ArtistData where
  id : String
  name : String
  artist_popularity : Nat
  artist_genres : List String
  followers : Nat
deriving DecidableEq, Repr

/-- Field extraction in the inner loop of `artists_df`, including the
`followers`-truthiness branch defaulting the total to 0. -/
def artistDataOf (a : RawArtistObj) : ArtistData where
  id := a.id.getD ""
  name := a.name.getD ""
  artist_popularity := a.popularity.getD 0
  artist_genres := a.genres.getD []
  followers := match a.followers with
    | some f => f.total.getD 0
    | none => 0

/-- Body of a `/v1/artists` response: the `artists` list, possibly with nulls. -/
structure ArtistsContent where
  artists : List (Option RawArtistObj)
deriving Repr

/-- Model of `SpotifyDataFetcher.artists_df` (fetch part): windows of 25 ids; null
entries of the `artists` list are skipped with `continue`. -/
def artists_df (api : List String → BatchResponse ArtistsContent)
    (track_ids : List String) :
    List (List String) × Except ErrInfo (List ArtistData) :=
  runBatches api (fun content => content.artists.filterMap (Option.map artistDataOf))
    (chunks 25 track_ids)

/-! ## Paginated search (`SpotifyDataManager.get_album_ids`) -/

/-- A `/v1/search` response: status, reason and — on the success path — the
`"albums"` object, whose `"items"` key may be absent (`items = none`); when
present, the `"id"` of each item is collected. -/
structure SearchResponse where
  status : Nat
  reason : String
  items : Option (List String)
deriving Repr

/-- The inner `while offset < total` loop of `get_album_ids` for one artist:
request at the current offset; on a non-200, `break` (keeping the ids so
far); otherwise extend with the item ids of the page when the `items` key is
present, and advance the offset by 50.  Returns the offsets requested and the
ids accumulated, in order. -/
def fetchArtistPages (api : String → Nat → SearchResponse) (artist : String)
    (offset total : Nat) : List Nat × List String :=
  if offset < total then
    let result := api artist offset
    if result.status ≠ 200 then
      ([offset], [])
    else
      let pageIds := result.items.getD []
      let rest := fetchArtistPages api artist (offset + 50) total
      (offset :: rest.1, pageIds ++ rest.2)
  else ([], [])
termination_by total - offset
decreasing_by omega

/-- Model of `SpotifyDataManager.get_album_ids`: for each artist, paginate with
offset 0, step 50, budget `total = 1000`, accumulating all ids into one list. -/
def get_album_ids (api : String → Nat → SearchResponse)
    (artist_names : List String) : List String :=
  artist_names.flatMap fun artist => (fetchArtistPages api artist 0 1000).2

/-- The search requests `get_album_ids` issues, as (artist, offset) pairs in
program order. -/
def get_album_ids_requests (api : String → Nat → SearchResponse)
    (artist_names : List String) : List (String × Nat) :=
  artist_names.flatMap fun artist =>
    (fetchArtistPages api artist 0 1000).1.map fun off => (artist, off)

/-! ## The list-widening step of `SpotifyDataFetcher.cleanup`

A pandas DataFrame is modelled as an ordered list of labelled columns (the
label set may contain duplicates, as `pd.concat(axis=1)` keeps duplicate
labels).  The generated labels `"artist_" + str(i)` / `"genre_" + str(i)` are
represented structurally so that label equality is decidable. -/

/-- A column label: an original field name, or a generated indexed name
`artist_i` / `genre_i`. -/
inductive ColName
  | base (s : String)
  | artist (i : Nat)
  | genre (i : Nat)
deriving DecidableEq, Repr

/-- A cell of a DataFrame: NaN/None, a string, a number, or a list value (the
`artists` column produced by `albums_df` holds lists of artist names). -/
inductive Cell
  | null
  | str (s : String)
  | nat (n : Nat)
  | strList (l : List String)
deriving DecidableEq, Repr

/-- A labelled column. -/
structure Col where
  name : ColName
  values : List Cell
deriving DecidableEq, Repr

/-- An ordered list of labelled columns (duplicate labels allowed). -/
structure Table where
  cols : List Col
deriving DecidableEq, Repr

/-- The length `pd.Series` gives a cell when expanding a list column: the
length of the list (cells of the `artists` column are always lists). -/
def listWidth : Cell → Nat
  | .strList l => l.length
  | _ => 0

/-- Number of columns `df["artists"].apply(pd.Series)` generates: the maximum
list width over the rows of the column. -/
def colMaxWidth (c : Col) : Nat :=
  (c.values.map listWidth).foldr max 0

/-- Entry `i` of the expansion of one cell: element `i` of the list, NaN when
the list is shorter. -/
def seriesAt (i : Nat) : Cell → Cell
  | .strList l =>
    match l.get? i with
    | some s => .str s
    | none => .null
  | _ => .null

/-- Label lookup `df[name]` (first column carrying the label). -/
def findCol (t : Table) (name : ColName) : Option Col :=
  t.cols.find? fun c => c.name = name

/-- The artist-credit widening step of `cleanup`:
`df_artist = df["artists"].apply(pd.Series)` renamed to `artist_i`, then
`pd.concat([df, df_artist], axis=1)`, which APPENDS the generated columns
(duplicate labels are kept by pandas).  `none` when there is no `artists`
column (the source would raise a `KeyError`). -/
def widenArtists (t : Table) : Option Table :=
  match findCol t (.base "artists") with
  | none => none
  | some c =>
    let newCols := (List.range (colMaxWidth c)).map fun i =>
      Col.mk (.artist i) (c.values.map (seriesAt i))
    some ⟨t.cols ++ newCols⟩

/-- Reading a cell of a row by label, with an absent column read as null
(missing columns are implicitly null at warehouse-write time). -/
def lookupCell (t : Table) (name : ColName) (row : Nat) : Cell :=
  match findCol t name with
  | none => .null
  | some c => (c.values.get? row).getD .null

/-- The DataFrame built from the rows of `albums_df`: one column per `track_info`
key, in insertion order. -/
def trackTable (rows : List TrackRow) : Table :=
  ⟨[⟨.base "track_name", rows.map fun r => .str r.track_name⟩,
    ⟨.base "track_id", rows.map fun r => .str r.track_id⟩,
    ⟨.base "track_number", rows.map fun r => .nat r.track_number⟩,
    ⟨.base "duration_ms", rows.map fun r => .nat r.duration_ms⟩,
    ⟨.base "artists", rows.map fun r => .strList r.artists⟩,
    ⟨.base "album_type", rows.map fun r => .str r.album_type⟩,
    ⟨.base "total_tracks", rows.map fun r => .nat r.total_tracks⟩,
    ⟨.base "album_name", rows.map fun r => .str r.album_name⟩,
    ⟨.base "release_date", rows.map fun r => .str r.release_date⟩,
    ⟨.base "label", rows.map fun r => .str r.label⟩,
    ⟨.base "album_popularity", rows.map fun r => .nat r.album_popularity⟩,
    ⟨.base "album_id", rows.map fun r => .str r.album_id⟩,
    ⟨.base "artist_id", rows.map fun r => .str r.artist_id⟩]⟩

/-- The enumerated artist slots of `schemas.schema_albums`:
`artist_0` .. `artist_11` (12 slots). -/
def schemaAlbumsArtistSlots : List ColName :=
  (List.range 12).map ColName.artist

/-! ## The Dataform trigger step of `initial_load.main` -/

/-- A call issued to the Dataform service by the trigger step. -/
inductive DataformCall
  | compilationCreate
  | workflowInvocationCreate (compilation_result : Option String)
deriving DecidableEq, Repr

/-- Model of `gcp_operators.create_compilation_result`: returns the response name on
success; the `except` branch catches a failure and returns `None`. -/
def create_compilation_result (response : Except String String) : Option String :=
  match response with
  | .ok n => some n
  | .error _ => none

/-- Model of `gcp_operators.create_workflow_invocation`: builds a `WorkflowInvocation`
whose `compilation_result` is whatever name it was handed (possibly null)
and issues the create request. -/
def create_workflow_invocation (compilation_result_name : Option String) :
    DataformCall :=
  .workflowInvocationCreate compilation_result_name

/-- The trigger step at the end of `initial_load.main`: create the
compilation result, then unconditionally create the workflow invocation with
whatever name came back. -/
def mainTriggerCalls (response : Except String String) : List DataformCall :=
  let compilation_result_name := create_compilation_result response
  [.compilationCreate, create_workflow_invocation compilation_result_name]

/-! ## Helper lemmas about the deduplication -/

lemma mem_dropDups_not_seen :
    ∀ (rows : List TrackRow) (seen : List String) (r : TrackRow),
      r ∈ dropDupsByTrackId rows seen → r.track_id ∉ seen := by
  intro rows
  induction rows with
  | nil => simp [dropDupsByTrackId]
  | cons r' rs ih =>
    intro seen r hr
    simp only [dropDupsByTrackId] at hr
    by_cases h : r'.track_id ∈ seen
    · rw [if_pos h] at hr
      exact ih seen r hr
    · rw [if_neg h] at hr
      rcases List.mem_cons.mp hr with rfl | hr'
      · exact h
      · intro hs
        exact ih _ r hr' (List.mem_cons_of_mem _ hs)

lemma dropDups_track_id_nodup :
    ∀ (rows : List TrackRow) (seen : List String),
      ((dropDupsByTrackId rows seen).map TrackRow.track_id).Nodup := by
  intro rows
  induction rows with
  | nil => simp [dropDupsByTrackId]
  | cons r' rs ih =>
    intro seen
    simp only [dropDupsByTrackId]
    by_cases h : r'.track_id ∈ seen
    · rw [if_pos h]; exact ih seen
    · rw [if_neg h]
      simp only [List.map_cons, List.nodup_cons]
      refine ⟨?_, ih _⟩
      intro hmem
      rcases List.mem_map.mp hmem with ⟨s, hs, hid⟩
      exact mem_dropDups_not_seen _ _ _ hs (hid ▸ List.mem_cons_self _ _)

lemma dropDups_complete :
    ∀ (rows : List TrackRow) (seen : List String) (r : TrackRow),
      r ∈ rows → r.track_id ∉ seen →
      r.track_id ∈ (dropDupsByTrackId rows seen).map TrackRow.track_id := by
  intro rows
  induction rows with
  | nil => intro _ _ h; simp at h
  | cons r' rs ih =>
    intro seen r hr hseen
    simp only [dropDupsByTrackId]
    by_cases h : r'.track_id ∈ seen
    · rw [if_pos h]
      rcases List.mem_cons.mp hr with rfl | hr'
      · exact absurd h hseen
      · exact ih seen r hr' hseen
    · rw [if_neg h]
      simp only [List.map_cons]
      by_cases hid : r.track_id = r'.track_id
      · rw [hid]; exact List.mem_cons_self _ _
      · rcases List.mem_cons.mp hr with rfl | hr'
        · exact (hid rfl).elim
        · refine List.mem_cons_of_mem _ (ih _ r hr' ?_)
          intro hmem
          rcases List.mem_cons.mp hmem with he | he
          · exact hid he
          · exact hseen he

lemma dropDups_first_seen :
    ∀ (rows : List TrackRow) (seen : List String) (r : TrackRow),
      r ∈ dropDupsByTrackId rows seen →
      rows.find? (fun x => x.track_id == r.track_id) = some r := by
  intro rows
  induction rows with
  | nil => simp [dropDupsByTrackId]
  | cons r' rs ih =>
    intro seen r hr
    simp only [dropDupsByTrackId] at hr
    by_cases h : r'.track_id ∈ seen
    · rw [if_pos h] at hr
      have hne : ¬ r'.track_id = r.track_id := by
        intro he
        exact mem_dropDups_not_seen _ _ _ hr (he ▸ h)
      rw [List.find?_cons_of_neg _ (by simp [hne])]
      exact ih seen r hr
    · rw [if_neg h] at hr
      rcases List.mem_cons.mp hr with rfl | hr'
      · rw [List.find?_cons_of_pos _ (by simp)]
      · have hne : ¬ r'.track_id = r.track_id := by
          intro he
          exact mem_dropDups_not_seen _ _ _ hr' (he ▸ List.mem_cons_self _ _)
        rw [List.find?_cons_of_neg _ (by simp [hne])]
        exact ih _ r hr'

lemma albumRows_length (a : RawAlbum) :
    (albumRows a).length = (a.artists.getD []).length * a.trackItems.length := by
  unfold albumRows
  induction a.artists.getD [] with
  | nil => simp
  | cons x xs ih =>
    simp only [List.flatMap_cons, List.length_append, List.length_map, ih,
      List.length_cons]
    ring

/-! ## Helper lemmas about `chunks` and `runBatches` -/

lemma chunks_flatten (n : Nat) (l : List α) : 0 < n → (chunks n l).flatten = l := by
  induction n, l using chunks.induct with
  | case1 n => intro _; simp [chunks]
  | case2 x xs => intro h; omega
  | case3 x xs m ih =>
    intro _
    simp only [chunks, List.flatten_cons]
    rw [ih (by omega), List.take_succ_cons]
    simp [List.take_append_drop]

lemma chunks_length (n : Nat) (l : List α) : 0 < n →
    (chunks n l).length = (l.length + n - 1) / n := by
  induction n, l using chunks.induct with
  | case1 n =>
    intro hn
    simp only [chunks, List.length_nil]
    rw [Nat.div_eq_of_lt (by omega)]
  | case2 x xs => intro h; omega
  | case3 x xs m ih =>
    intro _
    simp only [chunks, List.length_cons, ih (by omega), List.length_drop]
    have hR : xs.length + 1 + (m + 1) - 1 = xs.length + (m + 1) := by omega
    rw [hR, Nat.add_div_right _ (by omega)]
    rcases le_or_lt xs.length m with h | h
    · have h1 : xs.length - m + (m + 1) - 1 = m := by omega
      rw [h1, Nat.div_eq_of_lt (by omega), Nat.div_eq_of_lt (by omega)]
    · have h1 : xs.length - m + (m + 1) - 1 = xs.length := by omega
      rw [h1]

lemma chunks_mem_length (n : Nat) (l : List α) :
    ∀ c ∈ chunks n l, c.length ≤ n := by
  induction n, l using chunks.induct with
  | case1 n => simp [chunks]
  | case2 x xs => simp [chunks]
  | case3 x xs m ih =>
    intro c hc
    simp only [chunks, List.mem_cons] at hc
    rcases hc with rfl | hc
    · exact List.length_take_le (m + 1) (x :: xs)
    · exact ih c hc

lemma chunks_dropLast_length (n : Nat) (l : List α) : 0 < n →
    ∀ c ∈ (chunks n l).dropLast, c.length = n := by
  induction n, l using chunks.induct with
  | case1 n => simp [chunks]
  | case2 x xs => intro h; omega
  | case3 x xs m ih =>
    intro hn c hc
    simp only [chunks] at hc
    rcases hdrop : xs.drop m with _ | ⟨y, ys⟩
    · rw [hdrop] at hc
      simp [chunks] at hc
    · rw [hdrop] at hc
      have hne : chunks (m + 1) (y :: ys) ≠ [] := by simp [chunks]
      rw [List.dropLast_cons_of_ne_nil hne] at hc
      rcases List.mem_cons.mp hc with rfl | hc'
      · have hlen : m < xs.length := by
          by_contra hle
          rw [List.drop_eq_nil_of_le (by omega)] at hdrop
          exact List.noConfusion hdrop
        simp only [List.length_take, List.length_cons]
        omega
      · have := ih (by omega) c
        rw [hdrop] at this
        exact this hc'

lemma runBatches_all_ok (api : List String → BatchResponse β) (extract : β → List γ) :
    ∀ cs : List (List String), (∀ c ∈ cs, (api c).status = 200) →
      runBatches api extract cs =
        (cs, .ok ((cs.map fun c => extract (api c).content).flatten)) := by
  intro cs
  induction cs with
  | nil => intro _; simp [runBatches]
  | cons c cs ih =>
    intro h
    have hc : (api c).status = 200 := h c (List.mem_cons_self _ _)
    simp only [runBatches]
    rw [if_neg (by simp [hc])]
    rw [ih fun c' hc' => h c' (List.mem_cons_of_mem _ hc')]
    simp

lemma runBatches_abort (api : List String → BatchResponse β) (extract : β → List γ) :
    ∀ (cs₁ : List (List String)) (c : List String) (cs₂ : List (List String)),
      (∀ c' ∈ cs₁, (api c').status = 200) → (api c).status ≠ 200 →
      runBatches api extract (cs₁ ++ c :: cs₂) =
        (cs₁ ++ [c], .error ⟨(api c).status, (api c).reason⟩) := by
  intro cs₁
  induction cs₁ with
  | nil =>
    intro c cs₂ _ hfail
    simp only [List.nil_append, runBatches]
    rw [if_pos hfail]
  | cons c₁ cs ih =>
    intro c cs₂ hok hfail
    have h1 : (api c₁).status = 200 := hok c₁ (List.mem_cons_self _ _)
    have hih : runBatches api extract (cs.append (c :: cs₂)) =
        (cs ++ [c], .error ⟨(api c).status, (api c).reason⟩) :=
      ih c cs₂ (fun c' hc' => hok c' (List.mem_cons_of_mem _ hc')) hfail
    simp only [List.cons_append, runBatches]
    rw [if_neg (by simp [h1])]
    rw [hih]

/-! ## C2: windowed batch fetch — request count and order preservation -/

/-- A benign audio-features oracle: every request succeeds and the
`audio_features` list carries one non-null feature per requested id, in
request order (the position-aligned contract of the API). -/
def featuresApiOf (feat : String → φ) :
    List String → BatchResponse (FeaturesContent φ) :=
  fun c => ⟨200, "OK", ⟨c.map fun i => some (feat i)⟩⟩

/-- The extraction `features_df` applies per window. -/
def featuresExtract (φ : Type) : FeaturesContent φ → List φ :=
  fun content => content.audio_features.filterMap id

/-- Claim C2: for window size `n > 0`, `chunks` partitions the id list into
contiguous windows of size `n` (last window possibly smaller); the batch
fetcher issues exactly ⌈L/n⌉ requests — zero, with an empty result, for an
empty list — and the concatenated per-window results preserve the original
id order. -/
theorem c2_batch_windows_count_and_order (n : Nat) (hn : 0 < n)
    (ids : List String) (feat : String → φ) :
    (chunks n ids).flatten = ids ∧
    (∀ c ∈ chunks n ids, c.length ≤ n) ∧
    (∀ c ∈ (chunks n ids).dropLast, c.length = n) ∧
    (runBatches (featuresApiOf feat) (featuresExtract φ) (chunks n ids)).1.length
      = (ids.length + n - 1) / n ∧
    (ids = [] →
      runBatches (featuresApiOf feat) (featuresExtract φ) (chunks n ids) = ([], .ok [])) ∧
    (runBatches (featuresApiOf feat) (featuresExtract φ) (chunks n ids)).2
      = .ok (ids.map feat) ∧
    features_df (featuresApiOf feat) ids = (chunks 100 ids, .ok (ids.map feat)) := by
  have hrun : ∀ m : Nat, runBatches (featuresApiOf feat) (featuresExtract φ) (chunks m ids) =
      (chunks m ids, .ok (((chunks m ids).map fun c =>
        featuresExtract φ (featuresApiOf feat c).content).flatten)) :=
    fun m => runBatches_all_ok _ _ _ fun c _ => rfl
  have hext : ∀ m : Nat, 0 < m → ((chunks m ids).map fun c =>
      featuresExtract φ (featuresApiOf feat c).content).flatten = ids.map feat := by
    intro m hm
    have hone : ∀ c : List String,
        featuresExtract φ (featuresApiOf feat c).content = c.map feat := by
      intro c
      show (c.map (some ∘ feat)).filterMap id = c.map feat
      rw [List.filterMap_map]
      exact congrFun (List.filterMap_eq_map feat) c
    simp only [hone, ← List.map_flatten, chunks_flatten m ids hm]
  refine ⟨chunks_flatten n ids hn, chunks_mem_length n ids,
    chunks_dropLast_length n ids hn, ?_, ?_, ?_, ?_⟩
  · rw [hrun n]
    exact chunks_length n ids hn
  · intro h
    subst h
    simp [chunks, runBatches]
  · rw [hrun n]
    simp [hext n hn]
  · show runBatches (featuresApiOf feat) (featuresExtract φ) (chunks 100 ids) = _
    rw [hrun 100, hext 100 (by omega)]

/-- Witness for C2 at window size 2 on three ids. -/
theorem c2_batch_windows_count_and_order_witness :
    (runBatches (featuresApiOf String.length) (featuresExtract Nat)
        (chunks 2 ["a", "bb", "c"])).1.length = 2 ∧
    (runBatches (featuresApiOf String.length) (featuresExtract Nat)
        (chunks 2 ["a", "bb", "c"])).2 = .ok [1, 2, 1] := by
  have h := c2_batch_windows_count_and_order 2 (by omega) ["a", "bb", "c"] String.length
  exact ⟨by simpa using h.2.2.2.1, by simpa using h.2.2.2.2.2.1⟩

/-! ## C3: the batch size of the scalar-subset fetcher is 50, not 100 -/

/-- A benign tracks oracle: every request succeeds and the `tracks` list
carries one raw track object per requested id, in request order. -/
def tracksApiOf (f : String → RawTrackObj) :
    List String → BatchResponse TracksContent :=
  fun c => ⟨200, "OK", ⟨c.map fun i => some (f i)⟩⟩

/-- A list of 51 track ids, enough to separate batch size 50 from 100. -/
def c3Ids : List String := "i0" :: List.replicate 50 "i"

/-- Claim C3, counterexample: on 51 ids with all-200 responses, `tracks_df`
issues 2 requests, while the claimed batch size of 100 would predict
⌈51/100⌉ = 1. -/
theorem c3_counterexample_two_requests_for_51_ids :
    (tracks_df (tracksApiOf fun i => ⟨some i, some 0, some false⟩) c3Ids).1.length = 2 ∧
    (c3Ids.length + 100 - 1) / 100 = 1 := by
  constructor
  · show (runBatches _ _ (chunks 50 c3Ids)).1.length = 2
    rw [runBatches_all_ok _ _ _ fun c _ => rfl]
    have hlen : c3Ids.length = 51 := by simp [c3Ids]
    rw [chunks_length 50 c3Ids (by omega), hlen]
  · simp [c3Ids]

/-- Claim C3, amended: the batch lookup variant that extracts only the scalar
subset (id, popularity, explicit flag) per item — `tracks_df` — partitions
its id list into windows of batch size 50, issuing ⌈L/50⌉ requests, and on a
per-id oracle returns the extracted triples in the original id order. -/
theorem c3_amended_tracks_df_batch_size_50 (ids : List String)
    (f : String → RawTrackObj) :
    tracks_df (tracksApiOf f) ids =
      (chunks 50 ids, .ok ((ids.map f).map trackFeaturesOf)) ∧
    (tracks_df (tracksApiOf f) ids).1.length = (ids.length + 50 - 1) / 50 := by
  have hrun : tracks_df (tracksApiOf f) ids =
      (chunks 50 ids, .ok (((chunks 50 ids).map fun c =>
        (((tracksApiOf f) c).content.tracks.filterMap (Option.map trackFeaturesOf))).flatten)) :=
    runBatches_all_ok _ _ _ fun c _ => rfl
  have hext : ((chunks 50 ids).map fun c =>
      (((tracksApiOf f) c).content.tracks.filterMap (Option.map trackFeaturesOf))).flatten
        = (ids.map f).map trackFeaturesOf := by
    have hone : ∀ c : List String,
        ((tracksApiOf f) c).content.tracks.filterMap (Option.map trackFeaturesOf)
          = c.map fun i => trackFeaturesOf (f i) := by
      intro c
      show (c.map (some ∘ f)).filterMap (Option.map trackFeaturesOf) = _
      rw [List.filterMap_map]
      exact congrFun (List.filterMap_eq_map (trackFeaturesOf ∘ f)) c
    simp only [hone, ← List.map_flatten, chunks_flatten 50 ids (by omega), List.map_map]
    rfl
  constructor
  · rw [hrun, hext]
  · rw [hrun]
    exact chunks_length 50 ids (by omega)

/-! ## C5: batch lookups abort on the first non-200 window -/

/-- Claim C5: each of the four batch lookups (album data, audio features, track
subset, artist subset) aborts on its first non-200 window: the raised error
carries the status code and reason of that response, no partial result is
returned, and the windows after the failing one are never requested. -/
theorem c5_batch_lookups_abort_on_first_failure :
    (∀ (api : List String → BatchResponse DataItem) (ids : List String)
        (cs₁ : List (List String)) (c : List String) (cs₂ : List (List String)),
        chunks 20 ids = cs₁ ++ c :: cs₂ →
        (∀ c' ∈ cs₁, (api c').status = 200) → (api c).status ≠ 200 →
        get_album_data api ids =
          (cs₁ ++ [c], .error ⟨(api c).status, (api c).reason⟩)) ∧
    (∀ (φ : Type) (api : List String → BatchResponse (FeaturesContent φ))
        (ids : List String)
        (cs₁ : List (List String)) (c : List String) (cs₂ : List (List String)),
        chunks 100 ids = cs₁ ++ c :: cs₂ →
        (∀ c' ∈ cs₁, (api c').status = 200) → (api c).status ≠ 200 →
        features_df api ids =
          (cs₁ ++ [c], .error ⟨(api c).status, (api c).reason⟩)) ∧
    (∀ (api : List String → BatchResponse TracksContent) (ids : List String)
        (cs₁ : List (List String)) (c : List String) (cs₂ : List (List String)),
        chunks 50 ids = cs₁ ++ c :: cs₂ →
        (∀ c' ∈ cs₁, (api c').status = 200) → (api c).status ≠ 200 →
        tracks_df api ids =
          (cs₁ ++ [c], .error ⟨(api c).status, (api c).reason⟩)) ∧
    (∀ (api : List String → BatchResponse ArtistsContent) (ids : List String)
        (cs₁ : List (List String)) (c : List String) (cs₂ : List (List String)),
        chunks 25 ids = cs₁ ++ c :: cs₂ →
        (∀ c' ∈ cs₁, (api c').status = 200) → (api c).status ≠ 200 →
        artists_df api ids =
          (cs₁ ++ [c], .error ⟨(api c).status, (api c).reason⟩)) := by
  refine ⟨?_, ?_, ?_, ?_⟩
  · intro api ids cs₁ c cs₂ hsplit hok hfail
    show runBatches _ _ (chunks 20 ids) = _
    rw [hsplit]
    exact runBatches_abort _ _ cs₁ c cs₂ hok hfail
  · intro φ api ids cs₁ c cs₂ hsplit hok hfail
    show runBatches _ _ (chunks 100 ids) = _
    rw [hsplit]
    exact runBatches_abort _ _ cs₁ c cs₂ hok hfail
  · intro api ids cs₁ c cs₂ hsplit hok hfail
    show runBatches _ _ (chunks 50 ids) = _
    rw [hsplit]
    exact runBatches_abort _ _ cs₁ c cs₂ hok hfail
  · intro api ids cs₁ c cs₂ hsplit hok hfail
    show runBatches _ _ (chunks 25 ids) = _
    rw [hsplit]
    exact runBatches_abort _ _ cs₁ c cs₂ hok hfail

/-- An album-lookup oracle that always fails with 500. -/
def c5BadAlbumApi : List String → BatchResponse DataItem :=
  fun _ => ⟨500, "Server Error", ⟨none⟩⟩

/-- A features oracle that always fails with 500. -/
def c5BadFeaturesApi : List String → BatchResponse (FeaturesContent Nat) :=
  fun _ => ⟨500, "Server Error", ⟨[]⟩⟩

/-- A tracks oracle that always fails with 429. -/
def c5BadTracksApi : List String → BatchResponse TracksContent :=
  fun _ => ⟨429, "Too Many Requests", ⟨[]⟩⟩

/-- An artists oracle that always fails with 503. -/
def c5BadArtistsApi : List String → BatchResponse ArtistsContent :=
  fun _ => ⟨503, "Service Unavailable", ⟨[]⟩⟩

/-- Witness for C5: each fetcher, on a single failing window, returns the
error carrying the status and reason of that window and requests nothing further. -/
theorem c5_batch_lookups_abort_on_first_failure_witness :
    get_album_data c5BadAlbumApi ["a"] = ([["a"]], .error ⟨500, "Server Error"⟩) ∧
    features_df c5BadFeaturesApi ["a"] = ([["a"]], .error ⟨500, "Server Error"⟩) ∧
    tracks_df c5BadTracksApi ["a"] = ([["a"]], .error ⟨429, "Too Many Requests"⟩) ∧
    artists_df c5BadArtistsApi ["a"] = ([["a"]], .error ⟨503, "Service Unavailable"⟩) := by
  have h1 := c5_batch_lookups_abort_on_first_failure.1 c5BadAlbumApi ["a"]
    [] ["a"] [] (by simp [chunks]) (by simp) (by decide)
  have h2 := c5_batch_lookups_abort_on_first_failure.2.1 Nat c5BadFeaturesApi ["a"]
    [] ["a"] [] (by simp [chunks]) (by simp) (by decide)
  have h3 := c5_batch_lookups_abort_on_first_failure.2.2.1 c5BadTracksApi ["a"]
    [] ["a"] [] (by simp [chunks]) (by simp) (by decide)
  have h4 := c5_batch_lookups_abort_on_first_failure.2.2.2 c5BadArtistsApi ["a"]
    [] ["a"] [] (by simp [chunks]) (by simp) (by decide)
  exact ⟨by simpa using h1, by simpa using h2, by simpa using h3, by simpa using h4⟩

/-! ## Helper lemmas about the pagination loop -/

lemma fetchArtistPages_all_ok (api : String → Nat → SearchResponse) (artist : String)
    (hok : ∀ off, (api artist off).status = 200) :
    ∀ (k offset : Nat),
      (fetchArtistPages api artist offset (offset + 50 * k)).1 =
        (List.range k).map (fun j => offset + 50 * j) ∧
      (fetchArtistPages api artist offset (offset + 50 * k)).2 =
        ((List.range k).map
          (fun j => (api artist (offset + 50 * j)).items.getD [])).flatten := by
  intro k
  induction k with
  | zero =>
    intro offset
    rw [fetchArtistPages]
    simp
  | succ k ih =>
    intro offset
    have heq : offset + 50 * (k + 1) = offset + 50 + 50 * k := by ring
    have hstep : fetchArtistPages api artist offset (offset + 50 * (k + 1)) =
        (offset :: (fetchArtistPages api artist (offset + 50) (offset + 50 + 50 * k)).1,
         (api artist offset).items.getD [] ++
           (fetchArtistPages api artist (offset + 50) (offset + 50 + 50 * k)).2) := by
      have hlt' : offset < offset + 50 + 50 * k := by omega
      rw [fetchArtistPages, heq, if_pos hlt']
      simp [hok]
    obtain ⟨ih1, ih2⟩ := ih (offset + 50)
    rw [hstep]
    constructor
    · simp only [ih1, List.range_succ_eq_map, List.map_cons, List.map_map,
        Nat.mul_zero, Nat.add_zero]
      congr 1
      apply List.map_congr_left
      intro j _
      simp only [Function.comp_apply, Nat.succ_eq_add_one]
      omega
    · simp only [ih2, List.range_succ_eq_map, List.map_cons, List.map_map,
        Nat.mul_zero, Nat.add_zero, List.flatten_cons]
      congr 1
      apply congrArg
      apply List.map_congr_left
      intro j _
      simp only [Function.comp_apply, Nat.succ_eq_add_one]
      have harg : offset + 50 + 50 * j = offset + 50 * (j + 1) := by ring
      rw [harg]

lemma fetchArtistPages_fail_at (api : String → Nat → SearchResponse) (artist : String) :
    ∀ (k offset total : Nat),
      offset + 50 * k < total →
      (∀ j, j < k → (api artist (offset + 50 * j)).status = 200) →
      (api artist (offset + 50 * k)).status ≠ 200 →
      fetchArtistPages api artist offset total =
        ((List.range (k + 1)).map (fun j => offset + 50 * j),
         ((List.range k).map
           (fun j => (api artist (offset + 50 * j)).items.getD [])).flatten) := by
  intro k
  induction k with
  | zero =>
    intro offset total hlt hok hfail
    have hfail' : (api artist offset).status ≠ 200 := by simpa using hfail
    rw [fetchArtistPages, if_pos (by omega)]
    simp [hfail', List.range_succ]
  | succ k ih =>
    intro offset total hlt hok hfail
    have h0 : (api artist offset).status = 200 := by simpa using hok 0 (by omega)
    have hstep : fetchArtistPages api artist offset total =
        (offset :: (fetchArtistPages api artist (offset + 50) total).1,
         (api artist offset).items.getD [] ++
           (fetchArtistPages api artist (offset + 50) total).2) := by
      rw [fetchArtistPages, if_pos (by omega)]
      simp [h0]
    have hih := ih (offset + 50) total (by omega)
      (fun j hj => by
        have h := hok (j + 1) (by omega)
        rwa [show offset + 50 * (j + 1) = offset + 50 + 50 * j from by ring] at h)
      (by
        have h := hfail
        rwa [show offset + 50 * (k + 1) = offset + 50 + 50 * k from by ring] at h)
    rw [hstep, hih]
    simp only [Prod.mk.injEq]
    constructor
    · simp only [List.range_succ_eq_map, List.map_cons, List.map_map,
        Nat.mul_zero, Nat.add_zero, List.cons.injEq, true_and]
      apply List.map_congr_left
      intro j _
      simp only [Function.comp_apply, Nat.succ_eq_add_one]
      omega
    · simp only [List.range_succ_eq_map, List.map_cons, List.map_map,
        Nat.mul_zero, Nat.add_zero, List.flatten_cons]
      congr 1
      apply congrArg
      apply List.map_congr_left
      intro j _
      simp only [Function.comp_apply, Nat.succ_eq_add_one]
      have harg : offset + 50 + 50 * j = offset + 50 * (j + 1) := by ring
      rw [harg]

/-! ## C4: exactly 20 requests per artist when every page returns 200 -/

/-- Claim C4: when every page response for an artist has status 200, the inner
loop of `get_album_ids` issues exactly 20 requests for that artist, at
offsets 0, 50, ..., 950: the offset advances by 50 after every request —
whatever the page `items` holds, including nothing at all — stopping only
at the fixed 1000-result budget. -/
theorem c4_twenty_requests_per_artist_on_success
    (api : String → Nat → SearchResponse) (artist : String)
    (hok : ∀ off, (api artist off).status = 200) :
    (fetchArtistPages api artist 0 1000).1 =
      (List.range 20).map (fun k => 50 * k) ∧
    (fetchArtistPages api artist 0 1000).1.length = 20 ∧
    get_album_ids_requests api [artist] =
      (List.range 20).map (fun k => (artist, 50 * k)) := by
  have h := (fetchArtistPages_all_ok api artist hok 20 0).1
  rw [show (0 : Nat) + 50 * 20 = 1000 from rfl] at h
  have h1 : (fetchArtistPages api artist 0 1000).1 =
      (List.range 20).map (fun k => 50 * k) := by
    rw [h]
    apply List.map_congr_left
    intro j _
    omega
  refine ⟨h1, by rw [h1]; simp, ?_⟩
  simp [get_album_ids_requests, h1, List.map_map, Function.comp]

/-- A search oracle that always answers 200 with no `items` key. -/
def c4Api : String → Nat → SearchResponse := fun _ _ => ⟨200, "OK", none⟩

/-- Witness for C4: 20 requests are issued even when every page is empty. -/
theorem c4_twenty_requests_per_artist_on_success_witness :
    (fetchArtistPages c4Api "Drake" 0 1000).1.length = 20 :=
  (c4_twenty_requests_per_artist_on_success c4Api "Drake" fun _ => rfl).2.1

/-! ## C6: a failed page abandons only the remaining pages of that artist -/

/-- Claim C6: if the page at offset `50 * k` for an artist is the first one to
answer non-200, pagination for that artist stops there: the failing request
is the last for that artist, the ids accumulated from its earlier pages are kept, no
error is raised (the loop returns normally), and the artists before and after
it in the input list are fetched exactly as if the failing artist only
contributed its partial ids. -/
theorem c6_non_200_stops_only_that_artist
    (api : String → Nat → SearchResponse) (artist : String) (k : Nat)
    (hk : k < 20)
    (hok : ∀ j, j < k → (api artist (50 * j)).status = 200)
    (hfail : (api artist (50 * k)).status ≠ 200) :
    (fetchArtistPages api artist 0 1000).1 =
      (List.range (k + 1)).map (fun j => 50 * j) ∧
    (fetchArtistPages api artist 0 1000).2 =
      ((List.range k).map (fun j => (api artist (50 * j)).items.getD [])).flatten ∧
    ∀ pre post : List String,
      get_album_ids api (pre ++ artist :: post) =
        get_album_ids api pre ++ (fetchArtistPages api artist 0 1000).2 ++
          get_album_ids api post := by
  have h := fetchArtistPages_fail_at api artist k 0 1000 (by omega)
    (fun j hj => by simpa using hok j hj) (by simpa using hfail)
  simp only [Nat.zero_add] at h
  refine ⟨by rw [h], by rw [h], ?_⟩
  intro pre post
  simp [get_album_ids, List.append_assoc]

/-- A search oracle whose artist `"Fail"` always answers 500; other artists
answer 200 with one item. -/
def c6Api : String → Nat → SearchResponse := fun artist _ =>
  if artist = "Fail" then ⟨500, "Server Error", none⟩
  else ⟨200, "OK", some [artist]⟩

/-- Witness for C6: artist `"Fail"` stops after its first page while the
surrounding artists are still fetched. -/
theorem c6_non_200_stops_only_that_artist_witness :
    (fetchArtistPages c6Api "Fail" 0 1000).1 =
      (List.range (0 + 1)).map (fun j => 50 * j) ∧
    get_album_ids c6Api (["A"] ++ "Fail" :: ["B"]) =
      get_album_ids c6Api ["A"] ++ (fetchArtistPages c6Api "Fail" 0 1000).2 ++
        get_album_ids c6Api ["B"] := by
  have h := c6_non_200_stops_only_that_artist c6Api "Fail" 0 (by omega)
    (fun j hj => absurd hj (by omega)) (by decide)
  exact ⟨h.1, h.2.2 ["A"] ["B"]⟩

/-! ## C1: cross-product flattening followed by first-seen deduplication -/

/-- C1 scenario, first album: 2 tracks, 1 artist credit. -/
def c1AlbumOne : RawAlbum :=
  { album_type := some "album", total_tracks := some 2, name := some "A1"
    release_date := some "2020-01-01", label := some "L", popularity := some 10
    id := some "a1", artists := some [⟨some "art1"⟩]
    tracks := some ⟨some [⟨some "t1", some "id1", some 1, some 1000, some [⟨"X"⟩]⟩,
                          ⟨some "t2", some "id2", some 2, some 2000, some [⟨"X"⟩, ⟨"Y"⟩]⟩]⟩ }

/-- C1 scenario, second album: 1 track, 2 artist credits. -/
def c1AlbumTwo : RawAlbum :=
  { album_type := some "album", total_tracks := some 1, name := some "A2"
    release_date := some "2021-01-01", label := some "L", popularity := some 20
    id := some "a2", artists := some [⟨some "art2"⟩, ⟨some "art3"⟩]
    tracks := some ⟨some [⟨some "t3", some "id3", some 1, some 3000, some [⟨"Z"⟩]⟩]⟩ }

/-- C1 scenario input: one raw batch response carrying both albums. -/
def c1Scenario : List DataItem := [⟨some [c1AlbumOne, c1AlbumTwo]⟩]

/-- The first-seen flat row for track `id3` in the C1 scenario. -/
def c1RowId3 : TrackRow :=
  { track_name := "t3", track_id := "id3", track_number := 1, duration_ms := 3000
    artists := ["Z"], album_type := "album", total_tracks := 1, album_name := "A2"
    release_date := "2021-01-01", label := "L", album_popularity := 20
    album_id := "a2", artist_id := "art2" }

/-- Claim C1: `albums_df` emits one row per (album, artist-credit, track) triple
(N credits × M tracks per album); `drop_duplicates(subset=["track_id"])` keeps
exactly one row per distinct track id — the first-seen one; and on the
two-album scenario (2 tracks × 1 credit, 1 track × 2 credits) flattening
yields 4 rows, deduplication yields exactly 3, each carrying its own
track-level artist-name list. -/
theorem c1_cross_product_then_first_seen_dedup :
    (∀ a : RawAlbum,
        (albumRows a).length = (a.artists.getD []).length * a.trackItems.length) ∧
    (∀ rows : List TrackRow,
        ((dedupTracks rows).map TrackRow.track_id).Nodup ∧
        (∀ r ∈ rows, r.track_id ∈ (dedupTracks rows).map TrackRow.track_id) ∧
        (∀ r ∈ dedupTracks rows,
            rows.find? (fun x => x.track_id == r.track_id) = some r)) ∧
    (albums_df c1Scenario).length = 4 ∧
    (dedupTracks (albums_df c1Scenario)).length = 3 ∧
    (dedupTracks (albums_df c1Scenario)).map (fun r => (r.track_id, r.artists)) =
      [("id1", ["X"]), ("id2", ["X", "Y"]), ("id3", ["Z"])] := by
  refine ⟨albumRows_length, fun rows => ⟨dropDups_track_id_nodup rows [],
    fun r hr => dropDups_complete rows [] r hr (by simp),
    fun r hr => dropDups_first_seen rows [] r hr⟩, ?_, ?_, ?_⟩
  · decide
  · decide
  · decide

/-- Witness for C1: in the scenario, the row kept for track id `id3` is the
first-seen one in the flattened table. -/
theorem c1_cross_product_then_first_seen_dedup_witness :
    (albums_df c1Scenario).find? (fun x => x.track_id == c1RowId3.track_id) =
      some c1RowId3 :=
  (c1_cross_product_then_first_seen_dedup.2.1 (albums_df c1Scenario)).2.2
    c1RowId3 (by decide)

/-! ## C10: albums with no artist credit or no tracks vanish from the flat table -/

/-- Claim C10: `albums_df` builds rows only inside the doubly nested loop over
artist credits and track items: an album whose artist-credit list or whose
nested track-items list is empty contributes no row at all, so its
album-level fields are dropped from the flat table. -/
theorem c10_empty_credits_or_tracks_emit_no_rows (a : RawAlbum)
    (h : a.artists.getD [] = [] ∨ a.trackItems = []) :
    albumRows a = [] ∧
    ∀ ds : List DataItem, albums_df (⟨some [a]⟩ :: ds) = albums_df ds := by
  have hrows : albumRows a = [] := by
    rcases h with h | h
    · simp [albumRows, h]
    · simp [albumRows, h]
  refine ⟨hrows, fun ds => ?_⟩
  simp [albums_df, hrows]

/-- C10 witness input: an album with fields set but an empty credit list. -/
def c10Album : RawAlbum :=
  { album_type := some "album", total_tracks := some 1, name := some "Orphan"
    release_date := some "2020-01-01", label := some "L", popularity := some 5
    id := some "aX", artists := some []
    tracks := some ⟨some [⟨some "t", some "id", some 1, some 5, some []⟩]⟩ }

/-- Witness for C10 at a concrete album with an empty artist-credit list. -/
theorem c10_empty_credits_or_tracks_emit_no_rows_witness :
    albumRows c10Album = [] ∧
    albums_df [⟨some [c10Album]⟩] = albums_df [] :=
  ⟨(c10_empty_credits_or_tracks_emit_no_rows c10Album (Or.inl rfl)).1,
   (c10_empty_credits_or_tracks_emit_no_rows c10Album (Or.inl rfl)).2 []⟩

/-! ## Helper lemmas about the widening step -/

lemma le_foldr_max (xs : List Nat) (x : Nat) (hx : x ∈ xs) :
    x ≤ xs.foldr max 0 := by
  induction xs with
  | nil => simp at hx
  | cons y ys ih =>
    rcases List.mem_cons.mp hx with rfl | hx'
    · exact le_max_left _ _
    · exact le_trans (ih hx') (le_max_right _ _)

lemma find?_artistCols (vals : List Cell) (m j : Nat) :
    ((List.range m).map fun i => Col.mk (.artist i) (vals.map (seriesAt i))).find?
      (fun col => col.name = ColName.artist j) =
    if j < m then some (Col.mk (.artist j) (vals.map (seriesAt j))) else none := by
  induction m with
  | zero => simp
  | succ m ih =>
    rw [List.range_succ, List.map_append, List.find?_append, ih]
    by_cases hj : j < m
    · rw [if_pos hj, if_pos (by omega)]
      rfl
    · rw [if_neg hj]
      simp only [Option.none_or, List.map_cons, List.map_nil]
      by_cases hjm : j = m
      · subst hjm
        rw [if_pos (by omega)]
        simp [List.find?]
      · rw [if_neg (by omega)]
        have hmj : ¬ (m = j) := by omega
        simp [List.find?, hmj]

/-- Decidable check that a table carries no generated `artist_i` column yet
(true of every table `cleanup` is applied to). -/
def noArtistCols (t : Table) : Bool :=
  t.cols.all fun col =>
    match col.name with
    | .artist _ => false
    | _ => true

lemma findCol_artist_none (t : Table) (h : noArtistCols t = true) (j : Nat) :
    t.cols.find? (fun col => col.name = ColName.artist j) = none := by
  rw [List.find?_eq_none]
  intro col hcol
  have hall := List.all_eq_true.mp h col hcol
  simp only [decide_eq_true_eq]
  intro hname
  rw [hname] at hall
  simp at hall

/-! ## C7: re-running the widening step is not column-count idempotent -/

/-- An unwidened one-row table whose `artists` column holds one name. -/
def c7BaseTable : Table := ⟨[⟨.base "artists", [.strList ["a"]]⟩]⟩

/-- `c7BaseTable` after one widening: it carries the indexed columns up to
its maximum observed list width (1), i.e. exactly `artist_0`. -/
def c7Table : Table :=
  ⟨[⟨.base "artists", [.strList ["a"]]⟩, ⟨.artist 0, [.str "a"]⟩]⟩

/-- Claim C7, counterexample: `c7Table` is the output of the widening step on
`c7BaseTable` and already carries the widened indexed columns up to the
maximum observed list width, yet applying the widening step again changes the
column count from 2 to 3: `pd.concat(axis=1)` appends the generated columns,
keeping duplicate labels. -/
theorem c7_counterexample_rewiden_changes_column_count :
    widenArtists c7BaseTable = some c7Table ∧
    c7Table.cols.length = 2 ∧
    (widenArtists c7Table).map (fun t => t.cols.length) = some 3 := by
  refine ⟨?_, ?_, ?_⟩ <;> decide

/-- Claim C7, amended: re-running the widening step on a table whose `artists`
column has maximum observed list width `m` appends the `m` indexed columns
again, growing the column count by exactly `m`; the count is unchanged
precisely when `m = 0`. -/
theorem c7_amended_rewiden_appends_width_columns (t : Table) (c : Col)
    (h : findCol t (.base "artists") = some c) :
    ∃ t', widenArtists t = some t' ∧
      t'.cols.length = t.cols.length + colMaxWidth c ∧
      (t'.cols.length = t.cols.length ↔ colMaxWidth c = 0) := by
  refine ⟨⟨t.cols ++ (List.range (colMaxWidth c)).map fun i =>
    Col.mk (.artist i) (c.values.map (seriesAt i))⟩, ?_, ?_, ?_⟩
  · simp [widenArtists, h]
  · simp
  · simp

/-- Witness for C7 (amended) on the already-widened table. -/
theorem c7_amended_rewiden_appends_width_columns_witness :
    ∃ t', widenArtists c7Table = some t' ∧
      t'.cols.length = c7Table.cols.length +
        colMaxWidth ⟨.base "artists", [.strList ["a"]]⟩ ∧
      (t'.cols.length = c7Table.cols.length ↔
        colMaxWidth ⟨.base "artists", [.strList ["a"]]⟩ = 0) :=
  c7_amended_rewiden_appends_width_columns c7Table
    ⟨.base "artists", [.strList ["a"]]⟩ (by decide)

/-! ## C8: three credits fill `artist_0`..`artist_2`, `artist_3`..`artist_11` null -/

/-- Claim C8: after artist-credit widening, a row whose track-level artist-name
list has exactly 3 elements reads a non-null name in `artist_0`..`artist_2`
and null in `artist_3`..`artist_11` (a column beyond the generated width
reads as null — missing columns are implicitly null at warehouse-write time,
and the warehouse schema enumerates exactly 12 artist slots). -/
theorem c8_three_credits_fill_first_three_slots (t : Table) (c : Col) (r : Nat)
    (l : List String)
    (hno : noArtistCols t = true)
    (hfind : findCol t (.base "artists") = some c)
    (hrow : c.values.get? r = some (.strList l))
    (hlen : l.length = 3) :
    ∃ t', widenArtists t = some t' ∧
      (∀ i : Fin 3, ∃ s, l.get? i.val = some s ∧
        lookupCell t' (.artist i.val) r = .str s ∧
        lookupCell t' (.artist i.val) r ≠ .null) ∧
      (∀ j, 3 ≤ j → j < 12 → lookupCell t' (.artist j) r = .null) ∧
      schemaAlbumsArtistSlots.length = 12 := by
  set m := colMaxWidth c with hm
  have hmem : Cell.strList l ∈ c.values := List.get?_mem hrow
  have hrow' : c.values[r]? = some (Cell.strList l) := by
    rw [← List.get?_eq_getElem?]
    exact hrow
  have hm3 : 3 ≤ m := by
    have : listWidth (Cell.strList l) ≤ m :=
      le_foldr_max _ _ (List.mem_map_of_mem listWidth hmem)
    simpa [listWidth, hlen] using this
  refine ⟨⟨t.cols ++ (List.range m).map fun i =>
    Col.mk (.artist i) (c.values.map (seriesAt i))⟩, ?_, ?_, ?_, ?_⟩
  · simp [widenArtists, hfind, hm]
  · intro i
    have hi3 : i.val < 3 := i.isLt
    have hfound : findCol ⟨t.cols ++ (List.range m).map fun i =>
        Col.mk (.artist i) (c.values.map (seriesAt i))⟩ (.artist i.val) =
        some (Col.mk (.artist i.val) (c.values.map (seriesAt i.val))) := by
      unfold findCol
      rw [List.find?_append, findCol_artist_none t hno, Option.none_or,
        find?_artistCols, if_pos (by omega)]
    obtain ⟨s, hs⟩ : ∃ s, l.get? i.val = some s := by
      have : i.val < l.length := by omega
      exact ⟨l.get ⟨i.val, this⟩, List.get?_eq_get this⟩
    have hs' : l[i.val]? = some s := by
      rw [← List.get?_eq_getElem?]
      exact hs
    refine ⟨s, hs, ?_, ?_⟩
    · simp [lookupCell, hfound, List.getElem?_map, hrow', seriesAt, hs']
    · simp [lookupCell, hfound, List.getElem?_map, hrow', seriesAt, hs']
  · intro j hj3 hj12
    by_cases hjm : j < m
    · have hfound : findCol ⟨t.cols ++ (List.range m).map fun i =>
          Col.mk (.artist i) (c.values.map (seriesAt i))⟩ (.artist j) =
          some (Col.mk (.artist j) (c.values.map (seriesAt j))) := by
        unfold findCol
        rw [List.find?_append, findCol_artist_none t hno, Option.none_or,
          find?_artistCols, if_pos hjm]
      have hnone : l[j]? = none := by
        rw [← List.get?_eq_getElem?]
        exact List.get?_eq_none.mpr (by omega)
      simp [lookupCell, hfound, List.getElem?_map, hrow', seriesAt, hnone]
    · have hfound : findCol ⟨t.cols ++ (List.range m).map fun i =>
          Col.mk (.artist i) (c.values.map (seriesAt i))⟩ (.artist j) = none := by
        unfold findCol
        rw [List.find?_append, findCol_artist_none t hno, Option.none_or,
          find?_artistCols, if_neg hjm]
      simp [lookupCell, hfound]
  · decide

/-- C8 witness row: a track with exactly 3 credited artist names. -/
def c8Row : TrackRow :=
  { track_name := "t", track_id := "id", track_number := 1, duration_ms := 100
    artists := ["X", "Y", "Z"], album_type := "album", total_tracks := 1
    album_name := "A", release_date := "2020-01-01", label := "L"
    album_popularity := 1, album_id := "a", artist_id := "x" }

/-- The one-row DataFrame the cleanup step would widen for `c8Row`. -/
def c8Table : Table := trackTable [c8Row]

/-- Witness for C8 on the concrete one-row table. -/
theorem c8_three_credits_fill_first_three_slots_witness :
    ∃ t', widenArtists c8Table = some t' ∧
      (∀ i : Fin 3, ∃ s, ["X", "Y", "Z"].get? i.val = some s ∧
        lookupCell t' (.artist i.val) 0 = .str s ∧
        lookupCell t' (.artist i.val) 0 ≠ .null) ∧
      (∀ j, 3 ≤ j → j < 12 → lookupCell t' (.artist j) 0 = .null) ∧
      schemaAlbumsArtistSlots.length = 12 :=
  c8_three_credits_fill_first_three_slots c8Table
    ⟨.base "artists", [.strList ["X", "Y", "Z"]]⟩ 0 ["X", "Y", "Z"]
    (by decide) (by decide) (by decide) rfl

/-! ## C9: the workflow invocation is attempted even when compilation failed -/

/-- Claim C9: in the trigger step of `initial_load.main`, when
`create_compilation_result` fails (returns no name), the
`create_workflow_invocation` call is still attempted, carrying the null
compilation reference. -/
theorem c9_invocation_attempted_after_failed_compilation
    (response : Except String String)
    (h : create_compilation_result response = none) :
    mainTriggerCalls response =
      [DataformCall.compilationCreate,
       DataformCall.workflowInvocationCreate none] := by
  simp [mainTriggerCalls, create_workflow_invocation, h]

/-- Witness for C9 at a concrete failed compilation call. -/
theorem c9_invocation_attempted_after_failed_compilation_witness :
    mainTriggerCalls (.error "compilation failed") =
      [DataformCall.compilationCreate,
       DataformCall.workflowInvocationCreate none] :=
  c9_invocation_attempted_after_failed_compilation (.error "compilation failed") rfl

end SpotifyETL
